import Mathlib

/-!
Verification of the dbt-mastery file-intake / incremental-load pipeline.

Shallow embedding of the coordination logic of the repository:
the File Locator (dags/utils/file_helpers.py, find_latest_csv and
check_file_exists), the Archiver (move_file), and the pipeline callables
(dags/dbt_mastery_pipeline.py: check_for_new_csv, load_csv_to_mysql,
archive_processed_csv) together with the DAG's strictly linear task chain.

The filesystem is modelled as a snapshot: a list of file entries (directory,
name, modification time, size) plus the set of known directories.  Python
library primitives used by the code (glob.glob, max with a key, os.path
operations, shutil.move, pandas read_csv / to_sql with a chunksize inside a
SQLAlchemy engine.begin transaction, datetime.strftime) are embedded as pure
functions over this snapshot, faithful to their documented behaviour.
-/

namespace DbtMastery

/-- A file visible in a filesystem snapshot: the directory it lives in, its
base name, its last-modification time and its size in bytes. -/
structure FileEnt where
  dir : String
  name : String
  mtime : Nat
  size : Nat
deriving DecidableEq

/-- A filesystem snapshot: the files present and the directories known to
exist. -/
structure FS where
  files : List FileEnt
  dirs : List String
deriving DecidableEq

/-- Glob-style pattern matching on character lists, as done by fnmatch for
the patterns the code uses: a star matches any (possibly empty) run of
characters, a question mark matches exactly one character, any other pattern
character matches itself. -/
def globMatch : List Char → List Char → Bool
  | [], cs => cs.isEmpty
  | '*' :: ps, cs => cs.tails.any (fun suffix => globMatch ps suffix)
  | '?' :: _, [] => false
  | '?' :: ps, _ :: cs => globMatch ps cs
  | _ :: _, [] => false
  | p :: ps, c :: cs => p == c && globMatch ps cs

/-- Name matching as glob.glob applies it: a name starting with a dot is
matched only by a pattern starting with a dot; otherwise plain glob
matching. -/
def fnmatchName (pattern name : String) : Bool :=
  match name.data, pattern.data with
  | '.' :: _, '.' :: _ => globMatch pattern.data name.data
  | '.' :: _, _ => false
  | _, _ => globMatch pattern.data name.data

/-- os.path.join for the directory-plus-name case used throughout. -/
def joinPath (dir name : String) : String := dir ++ "/" ++ name

/-- The entries of the snapshot that glob.glob(os.path.join(directory,
pattern)) enumerates: files of that directory whose name matches the
pattern, in snapshot listing order. -/
def globEntries (fs : FS) (directory pattern : String) : List FileEnt :=
  fs.files.filter (fun f => f.dir == directory && fnmatchName pattern f.name)

/-- The comparison step CPython max performs per element: the running
maximum is replaced only when a strictly greater key appears. -/
def maxStep (key : α → Nat) (acc y : α) : α := if key acc < key y then y else acc

/-- Python max(xs, key=k) on a non-empty list: a left fold of maxStep, hence
the first element attaining the maximal key; None on the empty list. -/
def pyMaxBy (key : α → Nat) : List α → Option α
  | [] => none
  | x :: xs => some (xs.foldl (maxStep key) x)

/-- z carries the greatest key of the list (ties allowed). -/
def isMaxIn (key : α → Nat) (l : List α) (z : α) : Bool :=
  l.all (fun y => decide (key y ≤ key z))

/-- find_latest_csv from dags/utils/file_helpers.py: glob the directory for
the pattern, return None when nothing matches, otherwise the match with the
greatest modification time (Python max keyed by os.path.getmtime). -/
def find_latest_csv (fs : FS) (directory pattern : String) : Option String :=
  let files := globEntries fs directory pattern
  match pyMaxBy (fun f => f.mtime) files with
  | none => none
  | some f => some (joinPath f.dir f.name)

/-- Look a full path up in the snapshot. -/
def FS.lookup (fs : FS) (p : String) : Option FileEnt :=
  fs.files.find? (fun f => joinPath f.dir f.name == p)

/-- os.path.exists on the snapshot. -/
def os_path_exists (fs : FS) (p : String) : Bool := (fs.lookup p).isSome

/-- check_file_exists from dags/utils/file_helpers.py: False when the path
does not exist, False when the file has size zero, True otherwise. -/
def check_file_exists (fs : FS) (filepath : String) : Bool :=
  match fs.lookup filepath with
  | none => false
  | some f => !(f.size == 0)

/-- The Python exceptions the pipeline callables can raise, plus the failure
modes of the external stages they drive. -/
inductive PyErr where
  /-- FileNotFoundError: raised by check_for_new_csv when no file matches,
  and by move_file when its source path does not exist. -/
  | fileNotFoundError
  /-- ValueError raised by check_for_new_csv when check_file_exists is
  False for the selected path. -/
  | valueErrorEmptyFile
  /-- An error from the database driver while a batch insert runs. -/
  | storageError
  /-- A failing dbt bash task somewhere between the loader and the
  archiver. -/
  | dbtError
deriving DecidableEq

instance [DecidableEq ε] [DecidableEq α] : DecidableEq (Except ε α) := fun x y =>
  match x, y with
  | .ok a, .ok b =>
    if h : a = b then isTrue (by rw [h])
    else isFalse (by intro hc; cases hc; exact h rfl)
  | .error a, .error b =>
    if h : a = b then isTrue (by rw [h])
    else isFalse (by intro hc; cases hc; exact h rfl)
  | .ok _, .error _ => isFalse (by intro hc; cases hc)
  | .error _, .ok _ => isFalse (by intro hc; cases hc)

/-- check_for_new_csv from dags/dbt_mastery_pipeline.py.  The code reads the
filesystem twice: once through find_latest_csv (selection) and once through
check_file_exists (validation); the two snapshot arguments model those two
read moments.  No match raises FileNotFoundError; a selected file for which
check_file_exists is False raises ValueError; otherwise the path is pushed
to XCom and returned. -/
def check_for_new_csv (fsSel fsVal : FS) (directory pattern : String) :
    Except PyErr String :=
  match find_latest_csv fsSel directory pattern with
  | none => .error .fileNotFoundError
  | some csvFile =>
    if check_file_exists fsVal csvFile then .ok csvFile
    else .error .valueErrorEmptyFile

/-- A row of the CSV, as parsed: one field per column. -/
abbrev Row : Type := List String

/-- Peel chunks of size n off the front of the list; the fuel argument (any
bound on the list length) makes the recursion structural.  With positive n
each step shortens the list, so the fuel never runs out in chunkList. -/
def chunkFuel (n : Nat) : Nat → List α → List (List α)
  | _, [] => []
  | 0, l => [l]
  | fuel + 1, x :: xs => (x :: xs).take n :: chunkFuel n fuel ((x :: xs).drop n)

/-- Split a list into consecutive chunks of the given size, the last chunk
possibly shorter, as pandas to_sql does for its chunksize argument. -/
def chunkList (n : Nat) (l : List α) : List (List α) := chunkFuel n l.length l

/-- One batch insert per chunk, executed in order on the transaction
connection; the environment decides which batch index (if any) the database
rejects.  On the first failing batch the insert loop aborts with the driver
error; otherwise every chunk is appended to the table. -/
def insertChunksFrom (failsAt : Nat → Bool) :
    Nat → List Row → List (List Row) → Except PyErr (List Row)
  | _, table, [] => .ok table
  | i, table, c :: cs =>
    if failsAt i then .error .storageError
    else insertChunksFrom failsAt (i + 1) (table ++ c) cs

/-- pandas df.to_sql(..., if_exists='append', chunksize=n) on a connection:
the data rows are written in chunks of size n, in order. -/
def to_sql_append (table : List Row) (rows : List Row) (chunksize : Nat)
    (failsAt : Nat → Bool) : Except PyErr (List Row) :=
  insertChunksFrom failsAt 0 table (chunkList chunksize rows)

/-- The chunksize literal passed to to_sql in load_csv_to_mysql. -/
def loadChunkSize : Nat := 10000

/-- load_csv_to_mysql from dags/dbt_mastery_pipeline.py: read the CSV into a
dataframe (df, here the list of parsed data rows), then inside
`with engine.begin() as conn` append df to the raw table with
chunksize=10000, and return len(df).  The engine.begin context manager
commits the transaction on successful exit and rolls it back when the body
raises, so a failed run leaves the table exactly as it was. -/
def load_csv_to_mysql (table : List Row) (df : List Row)
    (failsAt : Nat → Bool) : List Row × Except PyErr Nat :=
  match to_sql_append table df loadChunkSize failsAt with
  | .ok committed => (committed, .ok df.length)
  | .error e => (table, .error e)

/-- A wall-clock timestamp as datetime.now() observes it, at second
resolution. -/
structure Timestamp where
  year : Nat
  month : Nat
  day : Nat
  hour : Nat
  minute : Nat
  second : Nat
deriving DecidableEq

/-- The ranges datetime.now() guarantees for its fields. -/
def Timestamp.Valid (t : Timestamp) : Prop :=
  t.year < 10000 ∧ 1 ≤ t.month ∧ t.month ≤ 12 ∧ 1 ≤ t.day ∧ t.day ≤ 31 ∧
    t.hour < 24 ∧ t.minute < 60 ∧ t.second < 60

instance (t : Timestamp) : Decidable t.Valid := by
  unfold Timestamp.Valid; infer_instance

/-- The w decimal digits of n, most significant first, zero padded (the
value is taken modulo 10^w, which never truncates in-range fields). -/
def padDigits : Nat → Nat → List Nat
  | 0, _ => []
  | w + 1, n => padDigits w (n / 10) ++ [n % 10]

/-- A decimal digit as the character strftime prints. -/
def digitChar (d : Nat) : Char := Char.ofNat (48 + d)

/-- A zero-padded w digit decimal rendering, as strftime %0wd. -/
def padChars (w n : Nat) : List Char := (padDigits w n).map digitChar

/-- datetime.now().strftime('%Y%m%d_%H%M%S') as a character list. -/
def timestampChars (t : Timestamp) : List Char :=
  padChars 4 t.year ++ padChars 2 t.month ++ padChars 2 t.day ++ ['_'] ++
    padChars 2 t.hour ++ padChars 2 t.minute ++ padChars 2 t.second

/-- datetime.now().strftime('%Y%m%d_%H%M%S'). -/
def timestampStr (t : Timestamp) : String := String.mk (timestampChars t)

/-- os.path.basename: the part of the path after its last slash. -/
def basename (p : String) : String :=
  String.mk ((p.data.reverse.takeWhile (fun c => !(c == '/'))).reverse)

/-- os.path.splitext on a base name, following CPython: split at the last
dot, unless every character before that dot is itself a dot (then the name
has no extension). -/
def splitext (p : String) : String × String :=
  let rev := p.data.reverse
  let extRev := rev.takeWhile (fun c => !(c == '.'))
  if extRev.length == rev.length then (p, "")
  else
    let stemRev := rev.drop (extRev.length + 1)
    if stemRev.any (fun c => !(c == '.')) then
      (String.mk stemRev.reverse, String.mk ('.' :: extRev.reverse))
    else (p, "")

/-- os.makedirs(d, exist_ok=True): record the directory, idempotently. -/
def makedirs (fs : FS) (d : String) : FS :=
  if fs.dirs.contains d then fs else FS.mk fs.files (fs.dirs ++ [d])

/-- shutil.move of an existing source path to a destination path inside
destDir: the source entry disappears, an entry with the new name appears in
destDir (replacing any entry already at that exact path, as rename does). -/
def fsMove (fs : FS) (source destDir newName : String) : FS :=
  match fs.lookup source with
  | none => fs
  | some f =>
    FS.mk
      ((fs.files.filter (fun g =>
          !(joinPath g.dir g.name == source) &&
          !(joinPath g.dir g.name == joinPath destDir newName))) ++
        [FileEnt.mk destDir newName f.mtime f.size])
      fs.dirs

/-- move_file from dags/utils/file_helpers.py: raise FileNotFoundError when
the source does not exist; otherwise create the destination directory,
build the new name as the original stem, an underscore, the
datetime.now() timestamp and the original extension, move the file there
and return the destination path. -/
def move_file (fs : FS) (source destination_dir : String) (now : Timestamp) :
    FS × Except PyErr String :=
  if !(os_path_exists fs source) then (fs, .error .fileNotFoundError)
  else
    let fs1 := makedirs fs destination_dir
    let filename := basename source
    let ts := timestampStr now
    let stemExt := splitext filename
    let new_filename := stemExt.1 ++ "_" ++ ts ++ stemExt.2
    let destination := joinPath destination_dir new_filename
    (fsMove fs1 source destination_dir new_filename, .ok destination)

/-- archive_processed_csv from dags/dbt_mastery_pipeline.py: pull the path
from XCom; when it is present and still exists, move it to the processed
directory and return the new path; otherwise report nothing to archive and
return None. -/
def archive_processed_csv (fs : FS) (csv_file : Option String)
    (processedDir : String) (now : Timestamp) :
    FS × Except PyErr (Option String) :=
  match csv_file with
  | some p =>
    if os_path_exists fs p then
      match move_file fs p processedDir now with
      | (fs1, .ok newPath) => (fs1, .ok (some newPath))
      | (fs1, .error e) => (fs1, .error e)
    else (fs, .ok none)
  | none => (fs, .ok none)

/-- The outcome of one DAG run: the filesystem afterwards, the raw table
afterwards, and either the archiver's result or the first error. -/
abbrev PipelineOutcome : Type := FS × List Row × Except PyErr (Option String)

/-- One run of the DAG's task chain check_new_data >> load_raw_data >>
dbt tasks >> archive_processed_csv, with Airflow's semantics that a failed
task stops every downstream task.  readCsv gives the parsed rows of a path
(pd.read_csv), failsAt which batch insert the database rejects, dbtOk
whether every dbt bash task succeeds, and now the archive-time clock. -/
def runPipeline (fs : FS) (directory pattern : String) (table : List Row)
    (readCsv : String → List Row) (failsAt : Nat → Bool) (dbtOk : Bool)
    (processedDir : String) (now : Timestamp) : PipelineOutcome :=
  match check_for_new_csv fs fs directory pattern with
  | .error e => (fs, table, .error e)
  | .ok csvFile =>
    match load_csv_to_mysql table (readCsv csvFile) failsAt with
    | (table1, .error e) => (fs, table1, .error e)
    | (table1, .ok _) =>
      if dbtOk then
        match archive_processed_csv fs (some csvFile) processedDir now with
        | (fs1, r) => (fs1, table1, r)
      else (fs, table1, .error .dbtError)

/-- Read a most-significant-first digit list back as a number (used to show
the zero-padded renderings are injective). -/
def undigits (l : List Nat) : Nat := l.foldl (fun a d => 10 * a + d) 0

/-- A snapshot with two matching intake files of different ages, used to
exercise the locator. -/
def fsTwoCsv : FS :=
  FS.mk [FileEnt.mk "incoming" "routes_a.csv" 5 10,
         FileEnt.mk "incoming" "routes_b.csv" 9 20] []

/-- A snapshot in which two matching intake files share the same latest
modification time, used to exercise the tie-break. -/
def fsTie : FS :=
  FS.mk [FileEnt.mk "incoming" "routes_a.csv" 9 10,
         FileEnt.mk "incoming" "routes_b.csv" 9 20] []

/-- A selection-time snapshot holding one non-empty matching file. -/
def fsSelOne : FS := FS.mk [FileEnt.mk "incoming" "routes_a.csv" 5 10] []

/-- A validation-time snapshot in which that file has vanished. -/
def fsGone : FS := FS.mk [] []

/-- A snapshot holding the single intake file the archiver examples move. -/
def fsOneIntake : FS := FS.mk [FileEnt.mk "incoming" "routes_x.csv" 5 10] []

lemma chunkFuel_nil (n fuel : Nat) : chunkFuel n fuel ([] : List α) = [] := by
  cases fuel <;> rfl

lemma chunkFuel_flatten (n : Nat) (hn : 0 < n) :
    ∀ (fuel : Nat) (l : List α), l.length ≤ fuel → (chunkFuel n fuel l).flatten = l := by
  intro fuel
  induction fuel with
  | zero =>
    intro l hl
    have hnil : l = [] := List.eq_nil_of_length_eq_zero (Nat.le_zero.mp hl)
    subst hnil
    rfl
  | succ fuel ih =>
    intro l hl
    cases l with
    | nil => rfl
    | cons x xs =>
      have hdrop : ((x :: xs).drop n).length ≤ fuel := by
        simp only [List.length_drop, List.length_cons]
        simp only [List.length_cons] at hl
        omega
      simp only [chunkFuel, List.flatten_cons]
      rw [ih _ hdrop, List.take_append_drop]

lemma chunkList_flatten (n : Nat) (hn : 0 < n) (l : List α) :
    (chunkList n l).flatten = l :=
  chunkFuel_flatten n hn l.length l le_rfl

lemma chunkFuel_sizes (n : Nat) (hn : 0 < n) :
    ∀ (fuel : Nat) (l : List α), l.length ≤ fuel →
      ∀ c ∈ chunkFuel n fuel l, 0 < c.length ∧ c.length ≤ n := by
  intro fuel
  induction fuel with
  | zero =>
    intro l hl c hc
    have hnil : l = [] := List.eq_nil_of_length_eq_zero (Nat.le_zero.mp hl)
    subst hnil
    simp [chunkFuel_nil] at hc
  | succ fuel ih =>
    intro l hl c hc
    cases l with
    | nil => simp [chunkFuel_nil] at hc
    | cons x xs =>
      simp only [chunkFuel, List.mem_cons] at hc
      rcases hc with rfl | hc
      · constructor
        · simp only [List.length_take, List.length_cons]
          omega
        · simp only [List.length_take]
          omega
      · have hdrop : ((x :: xs).drop n).length ≤ fuel := by
          simp only [List.length_drop, List.length_cons]
          simp only [List.length_cons] at hl
          omega
        exact ih _ hdrop c hc

lemma chunkFuel_dropLast_full (n : Nat) (hn : 0 < n) :
    ∀ (fuel : Nat) (l : List α), l.length ≤ fuel →
      ∀ c ∈ (chunkFuel n fuel l).dropLast, c.length = n := by
  intro fuel
  induction fuel with
  | zero =>
    intro l hl c hc
    have hnil : l = [] := List.eq_nil_of_length_eq_zero (Nat.le_zero.mp hl)
    subst hnil
    simp [chunkFuel_nil] at hc
  | succ fuel ih =>
    intro l hl c hc
    cases l with
    | nil => simp [chunkFuel_nil] at hc
    | cons x xs =>
      simp only [chunkFuel] at hc
      cases hrest : chunkFuel n fuel ((x :: xs).drop n) with
      | nil => simp [hrest] at hc
      | cons r rs =>
        rw [hrest, List.dropLast_cons₂, List.mem_cons] at hc
        have hdrop : ((x :: xs).drop n).length ≤ fuel := by
          simp only [List.length_drop, List.length_cons]
          simp only [List.length_cons] at hl
          omega
        rcases hc with rfl | hc
        · have hne : (x :: xs).drop n ≠ [] := by
            intro hdn
            rw [hdn, chunkFuel_nil] at hrest
            exact List.noConfusion hrest
          have hlen : n < (x :: xs).length := by
            by_contra hge
            exact hne (List.drop_eq_nil_of_le (Nat.le_of_not_lt hge))
          simp only [List.length_take]
          omega
        · rw [← hrest] at hc
          exact ih _ hdrop c hc

lemma insertChunksFrom_ok (failsAt : Nat → Bool) :
    ∀ (cs : List (List Row)) (i : Nat) (table t : List Row),
      insertChunksFrom failsAt i table cs = .ok t → t = table ++ cs.flatten := by
  intro cs
  induction cs with
  | nil =>
    intro i table t h
    simp only [insertChunksFrom, Except.ok.injEq] at h
    simp [← h]
  | cons c cs ih =>
    intro i table t h
    simp only [insertChunksFrom] at h
    by_cases hf : failsAt i
    · rw [if_pos hf] at h
      exact Except.noConfusion h
    · rw [if_neg hf] at h
      rw [ih _ _ _ h, List.flatten_cons, List.append_assoc]

lemma insertChunksFrom_error (failsAt : Nat → Bool) :
    ∀ (cs : List (List Row)) (i : Nat) (table : List Row),
      (∃ j, j < cs.length ∧ failsAt (i + j) = true) →
      insertChunksFrom failsAt i table cs = .error .storageError := by
  intro cs
  induction cs with
  | nil =>
    intro i table h
    obtain ⟨j, hj, -⟩ := h
    simp at hj
  | cons c cs ih =>
    intro i table h
    by_cases hf : failsAt i
    · simp [insertChunksFrom, hf]
    · obtain ⟨j, hj, hfj⟩ := h
      have hj0 : j ≠ 0 := by
        intro hz
        rw [hz, Nat.add_zero] at hfj
        exact hf hfj
      obtain ⟨j1, rfl⟩ : ∃ j1, j = j1 + 1 := ⟨j - 1, by omega⟩
      simp only [insertChunksFrom, if_neg hf]
      apply ih (i + 1) (table ++ c)
      refine ⟨j1, ?_, ?_⟩
      · simp only [List.length_cons] at hj
        omega
      · rw [← hfj]
        congr 1
        omega

lemma load_eq_of_to_sql_ok (table df : List Row) (failsAt : Nat → Bool)
    (committed : List Row)
    (hsql : to_sql_append table df loadChunkSize failsAt = .ok committed) :
    load_csv_to_mysql table df failsAt = (committed, .ok df.length) := by
  unfold load_csv_to_mysql
  rw [hsql]

lemma load_eq_of_to_sql_error (table df : List Row) (failsAt : Nat → Bool)
    (e : PyErr)
    (hsql : to_sql_append table df loadChunkSize failsAt = .error e) :
    load_csv_to_mysql table df failsAt = (table, .error e) := by
  unfold load_csv_to_mysql
  rw [hsql]

lemma load_csv_to_mysql_ok (table df : List Row) (failsAt : Nat → Bool) (n : Nat)
    (h : (load_csv_to_mysql table df failsAt).2 = Except.ok n) :
    n = df.length ∧ (load_csv_to_mysql table df failsAt).1 = table ++ df := by
  cases hsql : to_sql_append table df loadChunkSize failsAt with
  | error e =>
    rw [load_eq_of_to_sql_error table df failsAt e hsql] at h
    simp at h
  | ok committed =>
    rw [load_eq_of_to_sql_ok table df failsAt committed hsql] at h ⊢
    simp only [Except.ok.injEq] at h
    refine ⟨h.symm, ?_⟩
    have hc := insertChunksFrom_ok failsAt (chunkList loadChunkSize df) 0 table committed hsql
    rw [hc, chunkList_flatten loadChunkSize (by decide) df]

/-- C2: when any batch append of a load fails, the surrounding
engine.begin transaction rolls every batch back: the raw table after the
run is exactly the raw table before it, and the loader surfaces the
storage error. -/
theorem load_csv_to_mysql_rollback (table df : List Row) (failsAt : Nat → Bool)
    (h : ∃ j, j < (chunkList loadChunkSize df).length ∧ failsAt j = true) :
    (load_csv_to_mysql table df failsAt).1 = table ∧
      (load_csv_to_mysql table df failsAt).2 = Except.error PyErr.storageError := by
  have herr : to_sql_append table df loadChunkSize failsAt = .error .storageError := by
    apply insertChunksFrom_error
    obtain ⟨j, hj, hfj⟩ := h
    exact ⟨j, hj, by simpa using hfj⟩
  unfold load_csv_to_mysql
  rw [herr]
  exact ⟨rfl, rfl⟩

/-- C2 witness: a two-row file whose only batch insert fails leaves the
one-row table as it was. -/
theorem load_csv_to_mysql_rollback_witness :
    (load_csv_to_mysql [["r0"]] [["a"], ["b"]] (fun _ => true)).1 = [["r0"]] ∧
      (load_csv_to_mysql [["r0"]] [["a"], ["b"]] (fun _ => true)).2
        = Except.error PyErr.storageError :=
  load_csv_to_mysql_rollback [["r0"]] [["a"], ["b"]] (fun _ => true)
    ⟨0, by decide, rfl⟩

/-- C3: a successful load of a file with N data rows appends exactly N rows
to the raw table and returns N, and a second successful load of the same
file appends N again, for 2N in total: the loader does not deduplicate. -/
theorem load_csv_to_mysql_appends (table df : List Row) (f1 f2 : Nat → Bool)
    (n1 n2 : Nat)
    (h1 : (load_csv_to_mysql table df f1).2 = Except.ok n1)
    (h2 : (load_csv_to_mysql ((load_csv_to_mysql table df f1).1) df f2).2
      = Except.ok n2) :
    n1 = df.length ∧ n2 = df.length ∧
      ((load_csv_to_mysql table df f1).1).length = table.length + df.length ∧
      ((load_csv_to_mysql ((load_csv_to_mysql table df f1).1) df f2).1).length
        = table.length + 2 * df.length := by
  obtain ⟨hn1, ht1⟩ := load_csv_to_mysql_ok table df f1 n1 h1
  obtain ⟨hn2, ht2⟩ :=
    load_csv_to_mysql_ok ((load_csv_to_mysql table df f1).1) df f2 n2 h2
  refine ⟨hn1, hn2, ?_, ?_⟩
  · rw [ht1, List.length_append]
  · rw [ht2, ht1, List.length_append, List.length_append]
    ring

/-- C3 witness: loading a three-row file twice into an initially one-row
table returns 3 both times and grows the table to 1 + 2 * 3 rows. -/
theorem load_csv_to_mysql_appends_witness :
    (3 : Nat) = ([["a"], ["b"], ["c"]] : List Row).length ∧
    (3 : Nat) = ([["a"], ["b"], ["c"]] : List Row).length ∧
    ((load_csv_to_mysql [["r0"]] [["a"], ["b"], ["c"]] (fun _ => false)).1).length
      = ([["r0"]] : List Row).length + ([["a"], ["b"], ["c"]] : List Row).length ∧
    ((load_csv_to_mysql
        ((load_csv_to_mysql [["r0"]] [["a"], ["b"], ["c"]] (fun _ => false)).1)
        [["a"], ["b"], ["c"]] (fun _ => false)).1).length
      = ([["r0"]] : List Row).length + 2 * ([["a"], ["b"], ["c"]] : List Row).length :=
  load_csv_to_mysql_appends [["r0"]] [["a"], ["b"], ["c"]]
    (fun _ => false) (fun _ => false) 3 3 (by decide) (by decide)

/-- C8: the loader writes its rows in order as fixed-size batches produced
from the to_sql chunksize, which load_csv_to_mysql sets to 10000: all
batches are non-empty, no batch exceeds the chunksize, every batch except
possibly the last is exactly the chunksize, and a successful run commits
exactly the concatenation of the batches. -/
theorem load_csv_to_mysql_write_discipline (table df : List Row)
    (failsAt : Nat → Bool) (n : Nat)
    (h : (load_csv_to_mysql table df failsAt).2 = Except.ok n) :
    loadChunkSize = 10000 ∧
      (load_csv_to_mysql table df failsAt).1
        = table ++ (chunkList loadChunkSize df).flatten ∧
      (∀ c ∈ chunkList loadChunkSize df, 0 < c.length ∧ c.length ≤ loadChunkSize) ∧
      (∀ c ∈ (chunkList loadChunkSize df).dropLast, c.length = loadChunkSize) := by
  refine ⟨rfl, ?_, ?_, ?_⟩
  · rw [(load_csv_to_mysql_ok table df failsAt n h).2,
      chunkList_flatten loadChunkSize (by decide) df]
  · exact chunkFuel_sizes loadChunkSize (by decide) df.length df le_rfl
  · exact chunkFuel_dropLast_full loadChunkSize (by decide) df.length df le_rfl

/-- C8 witness: a successful two-row load uses a single batch of two rows,
within the 10000-row chunksize. -/
theorem load_csv_to_mysql_write_discipline_witness :
    loadChunkSize = 10000 ∧
      (load_csv_to_mysql [] [["a"], ["b"]] (fun _ => false)).1
        = [] ++ (chunkList loadChunkSize [["a"], ["b"]]).flatten ∧
      (∀ c ∈ chunkList loadChunkSize ([["a"], ["b"]] : List Row),
        0 < c.length ∧ c.length ≤ loadChunkSize) ∧
      (∀ c ∈ (chunkList loadChunkSize ([["a"], ["b"]] : List Row)).dropLast,
        c.length = loadChunkSize) :=
  load_csv_to_mysql_write_discipline [] [["a"], ["b"]] (fun _ => false) 2 (by decide)

lemma isMaxIn_cons_eq (key : α → Nat) (x : α) (l : List α) (w : α) (hw : w ∈ l)
    (hle : key x ≤ key w) : isMaxIn key (x :: l) = isMaxIn key l := by
  funext z
  simp only [isMaxIn, List.all_cons]
  cases hl : l.all (fun y => decide (key y ≤ key z)) with
  | false => simp
  | true =>
    have hwz : key w ≤ key z := by
      have := List.all_eq_true.mp hl w hw
      exact of_decide_eq_true this
    have hxz : decide (key x ≤ key z) = true := decide_eq_true (le_trans hle hwz)
    simp [hxz]

lemma isMaxIn_cons_cons_eq (key : α → Nat) (x y : α) (l : List α)
    (hle : key y ≤ key x) : isMaxIn key (x :: y :: l) = isMaxIn key (x :: l) := by
  funext z
  simp only [isMaxIn, List.all_cons]
  cases hx : decide (key x ≤ key z) with
  | false => simp
  | true =>
    have hyz : decide (key y ≤ key z) = true :=
      decide_eq_true (le_trans hle (of_decide_eq_true hx))
    simp [hyz]

lemma find?_isMaxIn_pyfold (key : α → Nat) :
    ∀ (xs : List α) (x : α),
      (x :: xs).find? (isMaxIn key (x :: xs)) = some (xs.foldl (maxStep key) x) := by
  intro xs
  induction xs with
  | nil =>
    intro x
    have hx : isMaxIn key [x] x = true := by simp [isMaxIn]
    simp [List.find?_cons_of_pos, hx]
  | cons y ys ih =>
    intro x
    by_cases hxy : key x < key y
    · have hPx : isMaxIn key (x :: y :: ys) x = false := by
        have hyx : decide (key y ≤ key x) = false := decide_eq_false (by omega)
        simp [isMaxIn, List.all_cons, hyx]
      have hdrop : isMaxIn key (x :: y :: ys) = isMaxIn key (y :: ys) :=
        isMaxIn_cons_eq key x (y :: ys) y (List.mem_cons_self y ys) (le_of_lt hxy)
      rw [List.find?_cons_of_neg _ (by simp [hPx]), hdrop, List.foldl_cons]
      have hstep : maxStep key x y = y := if_pos hxy
      rw [hstep]
      exact ih y
    · have hyx : key y ≤ key x := Nat.le_of_not_lt hxy
      have hdrop : isMaxIn key (x :: y :: ys) = isMaxIn key (x :: ys) :=
        isMaxIn_cons_cons_eq key x y ys hyx
      have hstep : maxStep key x y = x := if_neg hxy
      rw [List.foldl_cons, hstep, ← ih x]
      cases hQx : isMaxIn key (x :: ys) x with
      | true =>
        have hPxt : isMaxIn key (x :: y :: ys) x = true := by rw [hdrop]; exact hQx
        rw [List.find?_cons_of_pos _ hPxt, List.find?_cons_of_pos _ hQx]
      | false =>
        have hPxf : isMaxIn key (x :: y :: ys) x = false := by rw [hdrop]; exact hQx
        have hPy : isMaxIn key (x :: y :: ys) y = false := by
          cases hPy : isMaxIn key (x :: y :: ys) y with
          | false => rfl
          | true =>
            exfalso
            have hall : key x ≤ key y ∧ ∀ w ∈ ys, key w ≤ key y := by
              simpa [isMaxIn] using hPy
            have hQxt : isMaxIn key (x :: ys) x = true := by
              simp only [isMaxIn, List.all_eq_true]
              intro w hw
              rcases List.mem_cons.mp hw with rfl | hw
              · simp
              · exact decide_eq_true (le_trans (hall.2 w hw) hyx)
            rw [hQxt] at hQx
            exact Bool.noConfusion hQx
        rw [List.find?_cons_of_neg _ (by simp [hPxf]),
          List.find?_cons_of_neg _ (by simp [hPy]),
          List.find?_cons_of_neg _ (by simp [hQx]), hdrop]

lemma pyMaxBy_eq_find? (key : α → Nat) (l : List α) :
    pyMaxBy key l = l.find? (isMaxIn key l) := by
  cases l with
  | nil => rfl
  | cons x xs => exact (find?_isMaxIn_pyfold key xs x).symm

/-- C1: the locator returns None exactly when no file matches, and
otherwise returns the path of a matching file whose modification time
bounds every other match. -/
theorem find_latest_csv_correct (fs : FS) (directory pattern : String) :
    (globEntries fs directory pattern = [] →
      find_latest_csv fs directory pattern = none) ∧
    (globEntries fs directory pattern ≠ [] →
      ∃ f ∈ globEntries fs directory pattern,
        find_latest_csv fs directory pattern = some (joinPath f.dir f.name) ∧
        ∀ g ∈ globEntries fs directory pattern, g.mtime ≤ f.mtime) := by
  constructor
  · intro h
    unfold find_latest_csv
    rw [h]
    rfl
  · intro h
    cases hl : globEntries fs directory pattern with
    | nil => exact absurd hl h
    | cons x xs =>
      have hfind := find?_isMaxIn_pyfold (fun f : FileEnt => f.mtime) xs x
      refine ⟨xs.foldl (maxStep (fun f : FileEnt => f.mtime)) x, ?_, ?_, ?_⟩
      · exact List.mem_of_find?_eq_some hfind
      · unfold find_latest_csv
        rw [hl]
        rfl
      · intro g hg
        have hmax := List.find?_some hfind
        simp only [isMaxIn, List.all_eq_true] at hmax
        have := hmax g hg
        exact of_decide_eq_true this

/-- C1 witness: with two matching files of ages 5 and 9 the locator returns
the younger one and its time bounds both matches. -/
theorem find_latest_csv_correct_witness :
    ∃ f ∈ globEntries fsTwoCsv "incoming" "routes_*.csv",
      find_latest_csv fsTwoCsv "incoming" "routes_*.csv"
          = some (joinPath f.dir f.name) ∧
        ∀ g ∈ globEntries fsTwoCsv "incoming" "routes_*.csv", g.mtime ≤ f.mtime :=
  (find_latest_csv_correct fsTwoCsv "incoming" "routes_*.csv").2 (by decide)

/-- C9: when two distinct matches tie for the greatest modification time,
the selection is still the canonical function of the snapshot: the first
listed match whose time bounds every other; re-reading the same snapshot
can therefore never change the selected path. -/
theorem find_latest_csv_tiebreak_deterministic (fs : FS)
    (directory pattern : String) (f g : FileEnt)
    (hf : f ∈ globEntries fs directory pattern)
    (hg : g ∈ globEntries fs directory pattern)
    (hne : f ≠ g) (htie : f.mtime = g.mtime)
    (hmaxf : ∀ e ∈ globEntries fs directory pattern, e.mtime ≤ f.mtime) :
    find_latest_csv fs directory pattern =
      ((globEntries fs directory pattern).find?
          (isMaxIn (fun e => e.mtime) (globEntries fs directory pattern))).map
        (fun e => joinPath e.dir e.name) := by
  unfold find_latest_csv
  rw [← pyMaxBy_eq_find? (fun e : FileEnt => e.mtime) (globEntries fs directory pattern)]
  cases hpm : pyMaxBy (fun e : FileEnt => e.mtime) (globEntries fs directory pattern) with
  | none => simp [hpm]
  | some m => simp [hpm]

/-- C9 witness: two matches tied at time 9; the locator's choice equals the
canonical first maximal entry of the snapshot listing. -/
theorem find_latest_csv_tiebreak_deterministic_witness :
    find_latest_csv fsTie "incoming" "routes_*.csv" =
      ((globEntries fsTie "incoming" "routes_*.csv").find?
          (isMaxIn (fun e => e.mtime) (globEntries fsTie "incoming" "routes_*.csv"))).map
        (fun e => joinPath e.dir e.name) :=
  find_latest_csv_tiebreak_deterministic fsTie "incoming" "routes_*.csv"
    (FileEnt.mk "incoming" "routes_a.csv" 9 10)
    (FileEnt.mk "incoming" "routes_b.csv" 9 20)
    (by decide) (by decide) (by decide) rfl (by decide)

/-- C4 counterexample: a file selected from the selection-time snapshot that
has vanished by validation time is reported with the very same ValueError
the zero-length case uses, not with a distinct not-found error: the two
failure causes are not distinguishable in the surfaced error. -/
theorem check_for_new_csv_vanished_counterexample :
    check_for_new_csv fsSelOne fsGone "incoming" "routes_*.csv"
        = Except.error PyErr.valueErrorEmptyFile ∧
      PyErr.valueErrorEmptyFile ≠ PyErr.fileNotFoundError := by
  decide

/-- C4 (amended): validation raises the empty-file ValueError both when the
selected file exists with zero length and when the path has vanished by
validation time; the distinct FileNotFoundError is raised only at selection
time, when no file matches at all.  The two validation-stage causes are not
distinguishable in the surfaced error. -/
theorem check_for_new_csv_validation_errors (fsSel fsVal : FS)
    (directory pattern p : String)
    (hsel : find_latest_csv fsSel directory pattern = some p) :
    (fsVal.lookup p = none →
      check_for_new_csv fsSel fsVal directory pattern
        = Except.error PyErr.valueErrorEmptyFile) ∧
    (∀ f, fsVal.lookup p = some f → f.size = 0 →
      check_for_new_csv fsSel fsVal directory pattern
        = Except.error PyErr.valueErrorEmptyFile) ∧
    (find_latest_csv fsSel directory pattern = none →
      check_for_new_csv fsSel fsVal directory pattern
        = Except.error PyErr.fileNotFoundError) := by
  refine ⟨?_, ?_, ?_⟩
  · intro hnone
    have hchk : check_file_exists fsVal p = false := by
      simp [check_file_exists, hnone]
    simp [check_for_new_csv, hsel, hchk]
  · intro f hf hsz
    have hchk : check_file_exists fsVal p = false := by
      simp [check_file_exists, hf, hsz]
    simp [check_for_new_csv, hsel, hchk]
  · intro hnone
    rw [hsel] at hnone
    exact Option.noConfusion hnone

/-- C4 amended witness: the selected file vanished before validation and
the surfaced error is the empty-file ValueError. -/
theorem check_for_new_csv_validation_errors_witness :
    check_for_new_csv fsSelOne fsGone "incoming" "routes_*.csv"
      = Except.error PyErr.valueErrorEmptyFile :=
  (check_for_new_csv_validation_errors fsSelOne fsGone "incoming" "routes_*.csv"
    "incoming/routes_a.csv" (by decide)).1 (by decide)

/-- C5: when check_for_new_csv fails — and its only failures are no
matching file and a selected file failing the non-empty check — the run
stops at once: the raw table is untouched, the filesystem is untouched (in
particular nothing is archived), and the run ends in that error rather than
reaching the archiver. -/
theorem pipeline_aborts_before_mutation (fs : FS) (directory pattern : String)
    (table : List Row) (readCsv : String → List Row) (failsAt : Nat → Bool)
    (dbtOk : Bool) (processedDir : String) (now : Timestamp) (e : PyErr)
    (h : check_for_new_csv fs fs directory pattern = Except.error e) :
    runPipeline fs directory pattern table readCsv failsAt dbtOk processedDir now
        = (fs, table, Except.error e) ∧
      (e = PyErr.fileNotFoundError ∨ e = PyErr.valueErrorEmptyFile) := by
  constructor
  · unfold runPipeline
    rw [h]
  · unfold check_for_new_csv at h
    cases hsel : find_latest_csv fs directory pattern with
    | none =>
      simp only [hsel, Except.error.injEq] at h
      exact Or.inl h.symm
    | some p =>
      cases hchk : check_file_exists fs p with
      | true => simp [hsel, hchk] at h
      | false =>
        simp only [hsel, hchk, Bool.false_eq_true, if_false,
          Except.error.injEq] at h
        exact Or.inr h.symm

/-- C5 witness: an empty intake directory makes the run abort with
FileNotFoundError, leaving table and filesystem untouched. -/
theorem pipeline_aborts_before_mutation_witness :
    runPipeline fsGone "incoming" "routes_*.csv" [["r0"]] (fun _ => [["a"]])
        (fun _ => false) true "processed" (Timestamp.mk 2025 11 14 9 30 0)
        = (fsGone, [["r0"]], Except.error PyErr.fileNotFoundError) ∧
      (PyErr.fileNotFoundError = PyErr.fileNotFoundError ∨
        PyErr.fileNotFoundError = PyErr.valueErrorEmptyFile) :=
  pipeline_aborts_before_mutation fsGone "incoming" "routes_*.csv" [["r0"]]
    (fun _ => [["a"]]) (fun _ => false) true "processed"
    (Timestamp.mk 2025 11 14 9 30 0) PyErr.fileNotFoundError (by decide)

/-- C7: when the archiver step runs with a source path that no longer
exists — for example a retry after a previously successful archive — it
returns the benign None outcome and changes nothing, instead of failing. -/
theorem archive_processed_csv_benign (fs : FS) (p processedDir : String)
    (now : Timestamp) (h : os_path_exists fs p = false) :
    archive_processed_csv fs (some p) processedDir now = (fs, Except.ok none) := by
  simp [archive_processed_csv, h]

/-- C7 witness: archiving a path absent from the snapshot is a no-op
returning None. -/
theorem archive_processed_csv_benign_witness :
    archive_processed_csv fsGone (some "incoming/routes_a.csv") "processed"
        (Timestamp.mk 2025 11 14 9 30 0) = (fsGone, Except.ok none) :=
  archive_processed_csv_benign fsGone "incoming/routes_a.csv" "processed"
    (Timestamp.mk 2025 11 14 9 30 0) (by decide)

/-- C10: the low-level mover raises FileNotFoundError for a missing source
before creating the destination directory or moving anything — the snapshot
is returned unchanged — while the pipeline-level archiver checks existence
first and returns the benign None without reaching move_file. -/
theorem move_file_missing_source (fs : FS) (p destDir : String)
    (now : Timestamp) (h : fs.lookup p = none) :
    move_file fs p destDir now = (fs, Except.error PyErr.fileNotFoundError) ∧
      archive_processed_csv fs (some p) destDir now = (fs, Except.ok none) := by
  have hex : os_path_exists fs p = false := by
    simp [os_path_exists, h]
  constructor
  · simp [move_file, hex]
  · exact archive_processed_csv_benign fs p destDir now hex

/-- C10 witness: moving a nonexistent path errors without mutating the
snapshot, and the archiver instead returns the benign None. -/
theorem move_file_missing_source_witness :
    move_file fsGone "incoming/routes_b.csv" "processed"
          (Timestamp.mk 2025 11 14 9 30 0)
        = (fsGone, Except.error PyErr.fileNotFoundError) ∧
      archive_processed_csv fsGone (some "incoming/routes_b.csv") "processed"
          (Timestamp.mk 2025 11 14 9 30 0) = (fsGone, Except.ok none) :=
  move_file_missing_source fsGone "incoming/routes_b.csv" "processed"
    (Timestamp.mk 2025 11 14 9 30 0) (by decide)

lemma padDigits_length (w n : Nat) : (padDigits w n).length = w := by
  induction w generalizing n with
  | zero => rfl
  | succ w ih => simp [padDigits, ih]

lemma undigits_padDigits (w n : Nat) : undigits (padDigits w n) = n % 10 ^ w := by
  induction w generalizing n with
  | zero => simp [padDigits, undigits, Nat.mod_one]
  | succ w ih =>
    have hfold : undigits (padDigits w (n / 10) ++ [n % 10])
        = 10 * undigits (padDigits w (n / 10)) + n % 10 := by
      simp [undigits, List.foldl_append]
    rw [padDigits, hfold, ih]
    have h1 := Nat.div_add_mod n 10
    have h3 := Nat.div_add_mod (n / 10) (10 ^ w)
    have h4 := Nat.div_add_mod n (10 ^ (w + 1))
    have h5 : n / 10 / 10 ^ w = n / 10 ^ (w + 1) := by
      rw [Nat.div_div_eq_div_mul, pow_succ']
    have hB : 10 ^ (w + 1) * (n / 10 ^ (w + 1))
        = 10 * (10 ^ w * (n / 10 / 10 ^ w)) := by
      rw [h5, pow_succ']
      ring
    omega

lemma padDigits_digits_lt (w n : Nat) : ∀ d ∈ padDigits w n, d < 10 := by
  induction w generalizing n with
  | zero => intro d hd; simp [padDigits] at hd
  | succ w ih =>
    intro d hd
    simp only [padDigits, List.mem_append, List.mem_singleton] at hd
    rcases hd with hd | rfl
    · exact ih _ _ hd
    · exact Nat.mod_lt _ (by decide)

lemma padDigits_inj (w a b : Nat) (ha : a < 10 ^ w) (hb : b < 10 ^ w)
    (h : padDigits w a = padDigits w b) : a = b := by
  have hu := congrArg undigits h
  rw [undigits_padDigits, undigits_padDigits, Nat.mod_eq_of_lt ha,
    Nat.mod_eq_of_lt hb] at hu
  exact hu

lemma digitChar_inj :
    ∀ a, a < 10 → ∀ b, b < 10 → digitChar a = digitChar b → a = b := by
  decide

lemma map_digitChar_inj :
    ∀ (l1 l2 : List Nat), (∀ d ∈ l1, d < 10) → (∀ d ∈ l2, d < 10) →
      l1.map digitChar = l2.map digitChar → l1 = l2 := by
  intro l1
  induction l1 with
  | nil =>
    intro l2 _ _ h
    cases l2 with
    | nil => rfl
    | cons b bs => simp at h
  | cons a as ih =>
    intro l2 h1 h2 h
    cases l2 with
    | nil => simp at h
    | cons b bs =>
      simp only [List.map_cons, List.cons.injEq] at h
      have ha : a < 10 := h1 a (by simp)
      have hb : b < 10 := h2 b (by simp)
      have hab := digitChar_inj a ha b hb h.1
      rw [hab,
        ih bs (fun d hd => h1 d (by simp [hd])) (fun d hd => h2 d (by simp [hd])) h.2]

lemma padChars_length (w n : Nat) : (padChars w n).length = w := by
  simp [padChars, padDigits_length]

lemma padChars_inj (w a b : Nat) (ha : a < 10 ^ w) (hb : b < 10 ^ w)
    (h : padChars w a = padChars w b) : a = b :=
  padDigits_inj w a b ha hb
    (map_digitChar_inj _ _ (padDigits_digits_lt w a) (padDigits_digits_lt w b) h)

lemma timestampChars_length (t : Timestamp) : (timestampChars t).length = 15 := by
  simp [timestampChars, padChars_length]

lemma timestampChars_inj (t1 t2 : Timestamp) (h1 : t1.Valid) (h2 : t2.Valid)
    (h : timestampChars t1 = timestampChars t2) : t1 = t2 := by
  obtain ⟨hy1, hmo1a, hmo1b, hd1a, hd1b, hh1, hmi1, hs1⟩ := h1
  obtain ⟨hy2, hmo2a, hmo2b, hd2a, hd2b, hh2, hmi2, hs2⟩ := h2
  unfold timestampChars at h
  obtain ⟨h, hs⟩ := List.append_inj' h (by rw [padChars_length, padChars_length])
  obtain ⟨h, hmi⟩ := List.append_inj' h (by rw [padChars_length, padChars_length])
  obtain ⟨h, hh⟩ := List.append_inj' h (by rw [padChars_length, padChars_length])
  obtain ⟨h, -⟩ := List.append_inj' h rfl
  obtain ⟨h, hd⟩ := List.append_inj' h (by rw [padChars_length, padChars_length])
  obtain ⟨hy, hmo⟩ := List.append_inj' h (by rw [padChars_length, padChars_length])
  have e2 : (10 : Nat) ^ 2 = 100 := by norm_num
  have e4 : (10 : Nat) ^ 4 = 10000 := by norm_num
  have ey := padChars_inj 4 _ _ (by rw [e4]; exact hy1) (by rw [e4]; exact hy2) hy
  have emo := padChars_inj 2 _ _ (by rw [e2]; omega) (by rw [e2]; omega) hmo
  have ed := padChars_inj 2 _ _ (by rw [e2]; omega) (by rw [e2]; omega) hd
  have eh := padChars_inj 2 _ _ (by rw [e2]; omega) (by rw [e2]; omega) hh
  have emi := padChars_inj 2 _ _ (by rw [e2]; omega) (by rw [e2]; omega) hmi
  have es := padChars_inj 2 _ _ (by rw [e2]; omega) (by rw [e2]; omega) hs
  cases t1
  cases t2
  simp_all

lemma timestampStr_inj (t1 t2 : Timestamp) (h1 : t1.Valid) (h2 : t2.Valid)
    (h : timestampStr t1 = timestampStr t2) : t1 = t2 := by
  apply timestampChars_inj t1 t2 h1 h2
  have hd := congrArg String.data h
  simpa [timestampStr] using hd

lemma archived_name_ne (stem1 stem2 ext : String) (t1 t2 : Timestamp)
    (h1 : t1.Valid) (h2 : t2.Valid) (hne : t1 ≠ t2) :
    stem1 ++ "_" ++ timestampStr t1 ++ ext
      ≠ stem2 ++ "_" ++ timestampStr t2 ++ ext := by
  intro h
  apply hne
  apply timestampStr_inj t1 t2 h1 h2
  have hd := congrArg String.data h
  simp only [String.data_append] at hd
  have h3 : stem1.data ++ "_".data ++ (timestampStr t1).data
      = stem2.data ++ "_".data ++ (timestampStr t2).data :=
    List.append_cancel_right hd
  have hlen : (timestampStr t1).data.length = (timestampStr t2).data.length := by
    show (timestampChars t1).length = (timestampChars t2).length
    rw [timestampChars_length, timestampChars_length]
  exact String.ext (List.append_inj' h3 hlen).2

lemma joinPath_name_inj (d n1 n2 : String) (h : joinPath d n1 = joinPath d n2) :
    n1 = n2 := by
  have hd := congrArg String.data h
  simp only [joinPath, String.data_append] at hd
  exact String.ext (List.append_cancel_left hd)

lemma move_file_ok_dest (fs fs1 : FS) (source destDir dest : String)
    (t : Timestamp) (h : move_file fs source destDir t = (fs1, Except.ok dest)) :
    dest = joinPath destDir
      ((splitext (basename source)).1 ++ "_" ++ timestampStr t
        ++ (splitext (basename source)).2) := by
  unfold move_file at h
  by_cases hex : os_path_exists fs source
  · simp only [hex, Bool.not_true, Bool.false_eq_true, if_false,
      Prod.mk.injEq, Except.ok.injEq] at h
    exact h.2.symm
  · simp only [Bool.not_eq_true] at hex
    simp [hex] at h

/-- C6: a successful archive names its destination
stem, underscore, strftime second-resolution timestamp taken at archive
time, original extension, inside the destination directory; and two
successful archives into the same directory, with the same extension but
different capture seconds, produce different destination paths, so the
second move never overwrites the first. -/
theorem move_file_name_and_no_overwrite
    (fsA fsB fsA1 fsB1 : FS) (srcA srcB destDir destA destB : String)
    (tA tB : Timestamp)
    (hvA : tA.Valid) (hvB : tB.Valid) (hne : tA ≠ tB)
    (hext : (splitext (basename srcA)).2 = (splitext (basename srcB)).2)
    (hA : move_file fsA srcA destDir tA = (fsA1, Except.ok destA))
    (hB : move_file fsB srcB destDir tB = (fsB1, Except.ok destB)) :
    destA = joinPath destDir
        ((splitext (basename srcA)).1 ++ "_" ++ timestampStr tA
          ++ (splitext (basename srcA)).2) ∧
      (timestampStr tA).length = 15 ∧
      destA ≠ destB := by
  have hdA := move_file_ok_dest fsA fsA1 srcA destDir destA tA hA
  have hdB := move_file_ok_dest fsB fsB1 srcB destDir destB tB hB
  refine ⟨hdA, timestampChars_length tA, ?_⟩
  rw [hdA, hdB, ← hext]
  intro hcol
  exact archived_name_ne _ _ _ tA tB hvA hvB hne (joinPath_name_inj _ _ _ hcol)

/-- C6 witness: the same intake file archived at 09:30:00 and at 09:30:01
gets the two expected distinct timestamped names. -/
theorem move_file_name_and_no_overwrite_witness :
    "processed/routes_x_20251114_093000.csv" = joinPath "processed"
        ((splitext (basename "incoming/routes_x.csv")).1 ++ "_"
          ++ timestampStr (Timestamp.mk 2025 11 14 9 30 0)
          ++ (splitext (basename "incoming/routes_x.csv")).2) ∧
      (timestampStr (Timestamp.mk 2025 11 14 9 30 0)).length = 15 ∧
      "processed/routes_x_20251114_093000.csv"
        ≠ "processed/routes_x_20251114_093001.csv" :=
  move_file_name_and_no_overwrite fsOneIntake fsOneIntake
    (FS.mk [FileEnt.mk "processed" "routes_x_20251114_093000.csv" 5 10]
      ["processed"])
    (FS.mk [FileEnt.mk "processed" "routes_x_20251114_093001.csv" 5 10]
      ["processed"])
    "incoming/routes_x.csv" "incoming/routes_x.csv" "processed"
    "processed/routes_x_20251114_093000.csv"
    "processed/routes_x_20251114_093001.csv"
    (Timestamp.mk 2025 11 14 9 30 0) (Timestamp.mk 2025 11 14 9 30 1)
    (by decide) (by decide) (by decide) rfl (by decide) (by decide)

end DbtMastery
